import Mathlib

/-!
Verification development for the training orchestration script
src/train_satellites.py of the spacenet-three repository.

The Python source is shallowly embedded: every stateful operation becomes
explicit state passing over plain Lean data, observable side effects
(file writes, directory removal, logging emissions, mode switches,
optimizer calls) become an explicit event trace, and floating-point
scalars are modelled as rationals.  External library collaborators whose
code is not part of the repository (sklearn's train_test_split, torch's
ReduceLROnPlateau) are modelled from the spec and are marked as such.
-/

namespace TrainSat

/-- The compute collaborator's mode, set by model.train() / model.eval(). -/
inductive Mode where
  | train
  | eval
deriving DecidableEq, Repr

/-- Observable side effects of the script, in program order. -/
inductive Event where
  | removeDir (path : String)
  | readTrainDataset (preset : String)
  | setMode (m : Mode)
  | forward
  | computeLoss
  | meterUpdate
  | zeroGrad
  | backward
  | optimizerStep
  | scalarLog (tag : String) (step : Nat)
  | imageLog (tag : String) (step : Nat)
  | printLine
  | saveFile (path : String)
  | copyFile (src dst : String)
  | raiseError (msg : String)
deriving DecidableEq, Repr

/-- One (input, target) batch as seen by the epoch loops: the scalar loss
the external criterion produces on it and input.size(0). -/
structure Batch where
  loss : ℚ
  size : ℚ
deriving DecidableEq, Repr

/-- The external compute collaborator: opaque parameter blob plus the
train/eval mode flag toggled by model.train() and model.eval(). -/
structure Model where
  params : Int
  mode : Mode
deriving DecidableEq, Repr

/-- AverageMeter (train_satellites.py lines 386-401): running value, sum,
count and derived average. -/
structure AverageMeter where
  val : ℚ
  avg : ℚ
  sum : ℚ
  count : ℚ
deriving DecidableEq, Repr

/-- AverageMeter.reset: all fields zeroed; __init__ calls it. -/
def AverageMeter.reset : AverageMeter :=
  { val := 0, avg := 0, sum := 0, count := 0 }

/-- AverageMeter.update(val, n): sum += val*n; count += n; avg = sum/count. -/
def AverageMeter.update (m : AverageMeter) (v : ℚ) (n : ℚ) : AverageMeter :=
  { val := v, sum := m.sum + v * n, count := m.count + n,
    avg := (m.sum + v * n) / (m.count + n) }

/-- Feeding a list of (value, weight) updates into a meter. -/
def applyUpdates (ups : List (ℚ × ℚ)) (m : AverageMeter) : AverageMeter :=
  ups.foldl (fun a p => a.update p.1 p.2) m

/-- Folding a meter over the batches of one pass. -/
def meterFold (bs : List Batch) (m : AverageMeter) : AverageMeter :=
  bs.foldl (fun a b => a.update b.loss b.size) m

/-- Result of one train or validate pass. -/
structure PassResult where
  avg : ℚ
  model : Model
  counter : Nat
  events : List Event
deriving Repr

/-- Per-batch body of train (lines 252-295): compute output and loss,
losses.update, optimizer.zero_grad(), loss.backward() (no optimizer.step()
appears in the source), optional tensorboard scalar at the running
train_minib_counter, counter increment, print every print_freq batches. -/
def trainBatches (tb : Bool) (pf : Nat) :
    List Batch → Nat → Nat → AverageMeter → AverageMeter × Nat × List Event
  | [], _, counter, m => (m, counter, [])
  | b :: rest, i, counter, m =>
    let m1 := m.update b.loss b.size
    let evs := [Event.forward, Event.computeLoss, Event.meterUpdate,
                Event.zeroGrad, Event.backward]
      ++ (if tb then [Event.scalarLog "train_loss" counter] else [])
      ++ (if i % pf == 0 then [Event.printLine] else [])
    let r := trainBatches tb pf rest (i + 1) (counter + 1) m1
    (r.1, r.2.1, evs ++ r.2.2)

/-- train(train_loader, model, criterion, optimizer, epoch), lines 240-299:
fresh meters, model.train(), the batch loop, returns losses.avg. -/
def trainPass (tb : Bool) (pf : Nat) (mdl : Model) (bs : List Batch)
    (c0 : Nat) : PassResult :=
  let r := trainBatches tb pf bs 0 c0 AverageMeter.reset
  { avg := r.1.avg, model := { mdl with mode := Mode.train }, counter := r.2.1,
    events := Event.setMode Mode.train :: r.2.2 }

/-- Per-batch body of validate (lines 312-375): forward, three image-log
blocks (each gated on tensorboard_images and the print cadence, each
stepped with the global train_minib_counter tc), loss, losses.update,
optional valid_loss scalar at valid_minib_counter, counter increment,
print every print_freq batches. -/
def validateBatches (tb tbi : Bool) (pf tc : Nat) :
    List Batch → Nat → Nat → AverageMeter → AverageMeter × Nat × List Event
  | [], _, vc, m => (m, vc, [])
  | b :: rest, i, vc, m =>
    let imgs1 := if tbi && (i % pf == 0) then [Event.imageLog "images" tc] else []
    let imgs2 := if tbi && (i % pf == 0) then [Event.imageLog "masks" tc] else []
    let imgs3 := if tbi && (i % pf == 0) then [Event.imageLog "preds" tc] else []
    let m1 := m.update b.loss b.size
    let sc := if tb then [Event.scalarLog "valid_loss" vc] else []
    let pr := if i % pf == 0 then [Event.printLine] else []
    let evs := Event.forward ::
      (imgs1 ++ imgs2 ++ imgs3 ++ [Event.computeLoss, Event.meterUpdate]
        ++ sc ++ pr)
    let r := validateBatches tb tbi pf tc rest (i + 1) (vc + 1) m1
    (r.1, r.2.1, evs ++ r.2.2)

/-- validate(val_loader, model, criterion), lines 301-379: fresh meters,
model.eval(), the batch loop, returns losses.avg.  The model parameters
are only read, never written, by the pass. -/
def validatePass (tb tbi : Bool) (pf : Nat) (mdl : Model) (bs : List Batch)
    (tc vc : Nat) : PassResult :=
  let r := validateBatches tb tbi pf tc bs 0 vc AverageMeter.reset
  { avg := r.1.avg, model := { mdl with mode := Mode.eval }, counter := r.2.1,
    events := Event.setMode Mode.eval :: r.2.2 }

/-- Checkpoint record written by main (lines 229-238): epoch completed
count, architecture id, model parameters, best validation loss so far. -/
structure CheckpointRecord where
  epoch : Nat
  arch : String
  state_dict : Int
  best_val_loss : ℚ
deriving DecidableEq, Repr

/-- Association-list lookup keyed by path, newest entry first. -/
def lookupF : List (String × CheckpointRecord) → String → Option CheckpointRecord
  | [], _ => none
  | (q, c) :: rest, p => if q = p then some c else lookupF rest p

/-- The durable state the script touches: tensorboard log directories
(keyed by lognumber) and checkpoint files (keyed by path). -/
structure FS where
  tbLogs : List String
  files : List (String × CheckpointRecord)
deriving DecidableEq, Repr

def FS.read (fs : FS) (p : String) : Option CheckpointRecord :=
  lookupF fs.files p

def FS.write (fs : FS) (p : String) (c : CheckpointRecord) : FS :=
  { fs with files := (p, c) :: fs.files }

/-- shutil.rmtree('tb_logs/{lognumber}/') wrapped in try/except (lines
85-88): the directory is removed when present, nothing fails. -/
def FS.rmTbLogs (fs : FS) (log : String) : FS :=
  { fs with tbLogs := fs.tbLogs.filter (fun l => l ≠ log) }

/-- save_checkpoint(state, is_best, filename, best_filename), lines
381-384: torch.save always writes filename; shutil.copyfile copies it to
best_filename iff is_best. -/
def save_checkpoint (fs : FS) (state : CheckpointRecord) (is_best : Bool)
    (filename best_filename : String) : FS × List Event :=
  let fs1 := fs.write filename state
  if is_best then
    (fs1.write best_filename state,
     [Event.saveFile filename, Event.copyFile filename best_filename])
  else
    (fs1, [Event.saveFile filename])

/-- 'weights/{}_checkpoint.pth.tar'.format(str(args.lognumber)). -/
def latestPath (log : String) : String :=
  "weights/" ++ log ++ "_checkpoint.pth.tar"

/-- 'weights/{}_best.pth.tar'.format(str(args.lognumber)). -/
def bestPath (log : String) : String :=
  "weights/" ++ log ++ "_best.pth.tar"

/-- Modelled from the spec: torch.optim.lr_scheduler.ReduceLROnPlateau is
external library code not contained in this repository; spec section 4.4
describes it as tracking the best monitored value, counting stale epochs
against a patience, decaying the step size by a factor bounded below by a
configured floor, and debouncing via a cooldown counter. -/
structure PlateauState where
  lr : ℚ
  best : Option ℚ
  num_bad_epochs : Nat
  cooldown_counter : Nat
deriving DecidableEq, Repr

/-- Decay factor 0.1 passed in main (line 189). -/
def plateau_factor : ℚ := 1 / 10

/-- Floor min_lr = 1e-7 passed in main (line 193). -/
def plateau_min_lr : ℚ := 1 / 10000000

/-- Minimum-improvement threshold 1e-3 passed in main (line 192). -/
def plateau_threshold : ℚ := 1 / 1000

/-- Patience 4 passed in main (line 190). -/
def plateau_patience : Nat := 4

/-- Cooldown length: not passed in main, library default 0. -/
def plateau_cooldown : Nat := 0

/-- Modelled from the spec: one scheduler.step(metric) transition of the
reduce-on-plateau policy of spec section 4.4 (minimize mode): an
improvement by more than the threshold resets staleness and updates the
best value; during cooldown staleness is not counted; once staleness
exceeds the patience the step size is multiplied by the decay factor but
never taken below the floor. -/
def plateau_step (st : PlateauState) (metric : ℚ) : PlateauState :=
  let improved : Bool :=
    match st.best with
    | none => true
    | some b => decide (metric < b - plateau_threshold)
  let st1 :=
    if improved then { st with best := some metric, num_bad_epochs := 0 }
    else { st with num_bad_epochs := st.num_bad_epochs + 1 }
  let st2 :=
    if st1.cooldown_counter > 0 then
      { st1 with cooldown_counter := st1.cooldown_counter - 1, num_bad_epochs := 0 }
    else st1
  if st2.num_bad_epochs > plateau_patience then
    { st2 with lr := max (st2.lr * plateau_factor) plateau_min_lr,
               cooldown_counter := plateau_cooldown, num_bad_epochs := 0 }
  else st2

/-- Python str.startswith, used for the architecture and optimizer
dispatch (lines 115-121 and 178-185). -/
def startswith (s pat : String) : Bool :=
  pat.data.isPrefixOf s.data

/-- Line 115/118: args.arch.startswith('linknet34') / ('unet11'). -/
def validArch (a : String) : Bool :=
  startswith a "linknet34" || startswith a "unet11"

/-- Line 178/181: args.optimizer.startswith('adam') / ('rmsprop'). -/
def validOptimizer (o : String) : Bool :=
  startswith o "adam" || startswith o "rmsprop"

/-- The recognized command-line configuration (lines 37-77), restricted
to the options the orchestration core reads. -/
structure Args where
  arch : String
  optimizer : String
  lognumber : String
  preset : String
  lr : ℚ
  epochs : Nat
  start_epoch : Nat
  print_freq : Nat
  seed : Nat
  resume : Option String
  evaluate : Bool
  tensorboard : Bool
  tensorboard_images : Bool
deriving Repr

/-- The data the external loaders feed to one epoch: the training batch
stream and the validation batch stream. -/
structure EpochData where
  trainBatches : List Batch
  valBatches : List Batch
deriving Repr

/-- The epoch-level validation mean loss determined by a validation batch
stream: the meter average after folding the stream into a fresh meter. -/
def valLossOf (d : EpochData) : ℚ :=
  (meterFold d.valBatches AverageMeter.reset).avg

/-- Resume handling (lines 128-138): if a resume path is configured and
the file exists, start_epoch, best_val_loss and the model parameters are
taken from the checkpoint; otherwise the run proceeds fresh with the
module-level best_val_loss = 100 (line 73) and the freshly built model. -/
def resolveResume (resume : Option String) (default_start : Nat) (fs : FS) :
    Nat × ℚ × Int :=
  match resume with
  | none => (default_start, 100, 0)
  | some p =>
    match fs.read p with
    | some ck => (ck.epoch, ck.best_val_loss, ck.state_dict)
    | none => (default_start, 100, 0)

/-- Scheduler construction in main (lines 187-194). -/
def initPlateau (lr : ℚ) : PlateauState :=
  { lr := lr, best := none, num_bad_epochs := 0, cooldown_counter := 0 }

/-- The mutable state threaded through the epoch loop of main. -/
structure LoopSt where
  best : ℚ
  model : Model
  tc : Nat
  vc : Nat
  sched : PlateauState
  fs : FS

/-- The two passes of one epoch (lines 204-207): train on the epoch's
training stream, then validate; the validation image logs are stepped
with the train counter as it stands after the training pass. -/
def epochRun (cfg : Args) (data : Nat → EpochData) (st : LoopSt) (e : Nat) :
    PassResult × PassResult :=
  let tr := trainPass cfg.tensorboard cfg.print_freq st.model
      (data e).trainBatches st.tc
  let va := validatePass cfg.tensorboard cfg.tensorboard_images cfg.print_freq
      tr.model (data e).valBatches tr.counter st.vc
  (tr, va)

/-- One iteration of the epoch loop (lines 200-238): train, validate,
scheduler.step(val_loss), optional epoch-level tensorboard scalars at
step epoch+1, is_best = val_loss < best_val_loss computed before
best_val_loss = min(val_loss, best_val_loss), then save_checkpoint with
the updated best and epoch+1. -/
def epochBody (cfg : Args) (data : Nat → EpochData) (st : LoopSt) (e : Nat) :
    LoopSt × List Event :=
  let tr := (epochRun cfg data st e).1
  let va := (epochRun cfg data st e).2
  let sched1 := plateau_step st.sched va.avg
  let tbEvs :=
    if cfg.tensorboard then
      [Event.scalarLog "train_epoch_loss" (e + 1),
       Event.scalarLog "valid_epoch_loss" (e + 1)]
    else []
  let is_best : Bool := decide (va.avg < st.best)
  let best1 := min va.avg st.best
  let ck : CheckpointRecord :=
    { epoch := e + 1, arch := cfg.arch, state_dict := va.model.params,
      best_val_loss := best1 }
  let sc := save_checkpoint st.fs ck is_best (latestPath cfg.lognumber)
      (bestPath cfg.lognumber)
  ({ best := best1, model := va.model, tc := tr.counter, vc := va.counter,
     sched := sched1, fs := sc.1 },
   tr.events ++ va.events ++ tbEvs ++ sc.2)

/-- for epoch in range(args.start_epoch, args.epochs) (line 200). -/
def runLoop (cfg : Args) (data : Nat → EpochData) :
    List Nat → LoopSt → LoopSt × List Event
  | [], st => (st, [])
  | e :: rest, st =>
    let r1 := epochBody cfg data st e
    let r2 := runLoop cfg data rest r1.1
    (r2.1, r1.2 ++ r2.2)

/-- The observable outcome of one process run. -/
structure ProgResult where
  trace : List Event
  fs : FS
  error : Option String
  ranEpochs : List Nat
  best : ℚ
  startEpoch : Nat
deriving Repr

/-- The whole program: module-level setup (the tb_logs removal of lines
85-88) followed by main (lines 94-238): dataset read and split,
architecture dispatch, resume handling, optimizer dispatch, the
evaluate-only short circuit, and the epoch loop. -/
def runProgram (cfg : Args) (fs0 : FS) (data : Nat → EpochData) : ProgResult :=
  let fs1 := fs0.rmTbLogs cfg.lognumber
  let ev0 := [Event.removeDir ("tb_logs/" ++ cfg.lognumber ++ "/"),
              Event.readTrainDataset cfg.preset]
  if validArch cfg.arch then
    let rr := resolveResume cfg.resume cfg.start_epoch fs1
    let startE := rr.1
    let best0 := rr.2.1
    let params0 := rr.2.2
    if validOptimizer cfg.optimizer then
      if cfg.evaluate then
        let va := validatePass cfg.tensorboard cfg.tensorboard_images
            cfg.print_freq { params := params0, mode := Mode.train }
            (data 0).valBatches 0 0
        { trace := ev0 ++ va.events, fs := fs1, error := none,
          ranEpochs := [], best := best0, startEpoch := startE }
      else
        let idxs := List.range' startE (cfg.epochs - startE)
        let st0 : LoopSt :=
          { best := best0, model := { params := params0, mode := Mode.train },
            tc := 0, vc := 0, sched := initPlateau cfg.lr, fs := fs1 }
        let r := runLoop cfg data idxs st0
        { trace := ev0 ++ r.2, fs := r.1.fs, error := none,
          ranEpochs := idxs, best := r.1.best, startEpoch := startE }
    else
      { trace := ev0 ++ [Event.raiseError "Optimizer not supported"],
        fs := fs1, error := some "Optimizer not supported",
        ranEpochs := [], best := best0, startEpoch := startE }
  else
    { trace := ev0 ++ [Event.raiseError "Model not supported"],
      fs := fs1, error := some "Model not supported",
      ranEpochs := [], best := 100, startEpoch := cfg.start_epoch }

/-- Congruential mixer used by the partition model below as its only,
seed-derived, source of randomness. -/
def lcg_mix (seed k : Nat) : Nat :=
  (1103515245 * (seed + k) + 12345) % 2147483648

/-- Rotation of an index list by a seed-derived offset. -/
def rotate_list (n : Nat) (l : List Nat) : List Nat :=
  l.drop (n % l.length) ++ l.take (n % l.length)

/-- Positions in the stratification-key list holding the key k. -/
def stratum_positions (strat : List Nat) (k : Nat) : List Nat :=
  (strat.enum.filter (fun p => p.2 == k)).map Prod.fst

/-- Validation index choice: per stratum in first-occurrence order, rotate
the stratum's positions by the seed mix and take the test-size share. -/
def val_indices (strat : List Nat) (test_size : ℚ) (seed : Nat) : List Nat :=
  strat.dedup.flatMap (fun k =>
    let idxs := stratum_positions strat k
    (rotate_list (lcg_mix seed k) idxs).take
      (Int.toNat ⌊test_size * (idxs.length : ℚ)⌋))

/-- Selection of the items whose index is (inVal = true) or is not
(inVal = false) in the validation index set. -/
def select (l : List String) (vi : List Nat) (inVal : Bool) : List String :=
  (l.enum.filter (fun p => vi.contains p.1 == inVal)).map Prod.snd

/-- Modelled from the spec: sklearn.model_selection.train_test_split
(called in main at lines 103-107 with test_size=0.2, stratify=cty_no and
random_state=args.seed) is external library code not contained in this
repository.  Spec section 4.1 requires the partition to be a
deterministic, stratified, pure function of (index, validation fraction,
seed) with no hidden entropy source; this definition realises that
contract.  Returns (train_imgs, val_imgs, train_masks, val_masks). -/
def train_test_split (imgs masks : List String) (strat : List Nat)
    (test_size : ℚ) (seed : Nat) :
    List String × List String × List String × List String :=
  let vi := val_indices strat test_size seed
  (select imgs vi false, select imgs vi true,
   select masks vi false, select masks vi true)

/-- Events a train-pass batch loop can emit. -/
def trainBatchEvent : Event → Bool
  | Event.forward => true
  | Event.computeLoss => true
  | Event.meterUpdate => true
  | Event.zeroGrad => true
  | Event.backward => true
  | Event.printLine => true
  | Event.scalarLog _ _ => true
  | _ => false

/-- Events a validate-pass batch loop can emit. -/
def validateBatchEvent : Event → Bool
  | Event.forward => true
  | Event.computeLoss => true
  | Event.meterUpdate => true
  | Event.printLine => true
  | Event.scalarLog _ _ => true
  | Event.imageLog _ _ => true
  | _ => false

/-- Every image log in scope carries the step tc. -/
def imageStepOk (tc : Nat) : Event → Bool
  | Event.imageLog _ s => s == tc
  | _ => true

/-- A configuration with an unknown architecture id and otherwise the
parser defaults of lines 37-71 (lognumber test_model, preset mul_urban,
adam, lr 0.1, 20 epochs, print_freq 10, seed 42, no resume, no flags). -/
def argsInvalidArch : Args :=
  { arch := "not_a_real_model", optimizer := "adam", lognumber := "test_model",
    preset := "mul_urban", lr := 1 / 10, epochs := 20, start_epoch := 0,
    print_freq := 10, seed := 42, resume := none, evaluate := false,
    tensorboard := false, tensorboard_images := false }

/-- A valid fresh-run configuration used as a concrete witness input. -/
def argsFresh : Args :=
  { arch := "linknet34", optimizer := "adam", lognumber := "m0",
    preset := "mul_urban", lr := 1 / 10, epochs := 1, start_epoch := 0,
    print_freq := 10, seed := 42, resume := none, evaluate := false,
    tensorboard := false, tensorboard_images := false }

/-- A valid resuming configuration used as a concrete witness input. -/
def argsResume : Args :=
  { arch := "linknet34", optimizer := "adam", lognumber := "m1",
    preset := "mul_urban", lr := 1 / 10, epochs := 5, start_epoch := 0,
    print_freq := 10, seed := 42, resume := some "weights/ck.pth",
    evaluate := false, tensorboard := false, tensorboard_images := false }

/-- A checkpoint as written at the end of epoch index 2 (epoch field 3). -/
def ckEpoch3 : CheckpointRecord :=
  { epoch := 3, arch := "linknet34", state_dict := 7, best_val_loss := 1 / 2 }

/-- A file system holding only that checkpoint. -/
def fsResume : FS := { tbLogs := [], files := [("weights/ck.pth", ckEpoch3)] }

/-- An empty file system. -/
def fsEmpty : FS := { tbLogs := [], files := [] }

/-- A file system in which the run's tb_logs directory already exists. -/
def fsWithTbLogs : FS := { tbLogs := ["test_model"], files := [] }

/-- Epoch data with no batches at all. -/
def emptyData : Nat → EpochData := fun _ => { trainBatches := [], valBatches := [] }

/-- Epoch data whose validation mean loss is exactly 100 every epoch. -/
def dataLoss100 : Nat → EpochData :=
  fun _ => { trainBatches := [⟨2, 1⟩], valBatches := [⟨100, 1⟩] }

theorem applyUpdates_nil (m : AverageMeter) : applyUpdates [] m = m := rfl

theorem applyUpdates_cons (p : ℚ × ℚ) (ups : List (ℚ × ℚ)) (m : AverageMeter) :
    applyUpdates (p :: ups) m = applyUpdates ups (m.update p.1 p.2) := rfl

theorem applyUpdates_sum (ups : List (ℚ × ℚ)) :
    ∀ m : AverageMeter,
      (applyUpdates ups m).sum = m.sum + (ups.map (fun p => p.1 * p.2)).sum := by
  induction ups with
  | nil => intro m; simp [applyUpdates_nil]
  | cons p ups ih =>
    intro m
    rw [applyUpdates_cons, ih]
    simp [AverageMeter.update]
    ring

theorem applyUpdates_count (ups : List (ℚ × ℚ)) :
    ∀ m : AverageMeter,
      (applyUpdates ups m).count = m.count + (ups.map Prod.snd).sum := by
  induction ups with
  | nil => intro m; simp [applyUpdates_nil]
  | cons p ups ih =>
    intro m
    rw [applyUpdates_cons, ih]
    simp [AverageMeter.update]
    ring

theorem applyUpdates_avg (ups : List (ℚ × ℚ)) :
    ∀ m : AverageMeter, m.avg = m.sum / m.count →
      (applyUpdates ups m).avg = (applyUpdates ups m).sum / (applyUpdates ups m).count := by
  induction ups with
  | nil => intro m h; simpa [applyUpdates_nil] using h
  | cons p ups ih =>
    intro m _
    rw [applyUpdates_cons]
    exact ih _ rfl

/-- C7: the metric accumulator is a faithful weighted running mean: after
reset followed by updates (v1,w1), ..., (vn,wn) with positive weights,
the mean equals sum(vi*wi)/sum(wi); after reset with no updates, reading
the mean yields 0 and does not fail. -/
theorem C7_average_meter (ups : List (ℚ × ℚ)) (_h : ∀ p ∈ ups, 0 < p.2) :
    (applyUpdates ups AverageMeter.reset).avg
        = (ups.map (fun p => p.1 * p.2)).sum / (ups.map Prod.snd).sum
  ∧ AverageMeter.reset.avg = 0 := by
  constructor
  · rw [applyUpdates_avg ups AverageMeter.reset (by simp [AverageMeter.reset]),
        applyUpdates_sum, applyUpdates_count]
    simp [AverageMeter.reset]
  · rfl

/-- Witness for C7 at the concrete update stream (2,1), (4,3). -/
theorem C7_witness :
    (∀ p ∈ [((2 : ℚ), (1 : ℚ)), ((4 : ℚ), (3 : ℚ))], 0 < p.2)
  ∧ ((applyUpdates [((2 : ℚ), (1 : ℚ)), ((4 : ℚ), (3 : ℚ))] AverageMeter.reset).avg
        = ([((2 : ℚ), (1 : ℚ)), ((4 : ℚ), (3 : ℚ))].map (fun p => p.1 * p.2)).sum
            / ([((2 : ℚ), (1 : ℚ)), ((4 : ℚ), (3 : ℚ))].map Prod.snd).sum
      ∧ AverageMeter.reset.avg = 0) :=
  ⟨by norm_num, C7_average_meter _ (by norm_num)⟩

theorem validateBatches_all_shape (tb tbi : Bool) (pf tc : Nat) :
    ∀ (bs : List Batch) (i vc : Nat) (m : AverageMeter),
      ((validateBatches tb tbi pf tc bs i vc m).2.2).all validateBatchEvent = true := by
  intro bs
  induction bs with
  | nil => intro i vc m; rfl
  | cons b rest ih =>
    intro i vc m
    simp only [validateBatches, List.all_append, List.all_cons, Bool.and_eq_true]
    refine ⟨⟨rfl, ?_⟩, ih (i + 1) (vc + 1) (m.update b.loss b.size)⟩
    split_ifs <;> simp [validateBatchEvent]

theorem validateBatches_all_imageStep (tb tbi : Bool) (pf tc : Nat) :
    ∀ (bs : List Batch) (i vc : Nat) (m : AverageMeter),
      ((validateBatches tb tbi pf tc bs i vc m).2.2).all (imageStepOk tc) = true := by
  intro bs
  induction bs with
  | nil => intro i vc m; rfl
  | cons b rest ih =>
    intro i vc m
    simp only [validateBatches, List.all_append, List.all_cons, Bool.and_eq_true]
    refine ⟨⟨rfl, ?_⟩, ih (i + 1) (vc + 1) (m.update b.loss b.size)⟩
    split_ifs <;> simp [imageStepOk]

theorem trainBatches_all_shape (tb : Bool) (pf : Nat) :
    ∀ (bs : List Batch) (i c : Nat) (m : AverageMeter),
      ((trainBatches tb pf bs i c m).2.2).all trainBatchEvent = true := by
  intro bs
  induction bs with
  | nil => intro i c m; rfl
  | cons b rest ih =>
    intro i c m
    simp only [trainBatches, List.all_append, List.all_cons, Bool.and_eq_true]
    refine ⟨?_, ih (i + 1) (c + 1) (m.update b.loss b.size)⟩
    split_ifs <;> simp [trainBatchEvent]

theorem validateBatches_meter (tb tbi : Bool) (pf tc : Nat) :
    ∀ (bs : List Batch) (i vc : Nat) (m : AverageMeter),
      (validateBatches tb tbi pf tc bs i vc m).1 = meterFold bs m := by
  intro bs
  induction bs with
  | nil => intro i vc m; rfl
  | cons b rest ih =>
    intro i vc m
    simp only [validateBatches, meterFold, List.foldl_cons]
    exact ih (i + 1) (vc + 1) (m.update b.loss b.size)

theorem validatePass_events (tb tbi : Bool) (pf : Nat) (mdl : Model)
    (bs : List Batch) (tc vc : Nat) :
    (validatePass tb tbi pf mdl bs tc vc).events
      = Event.setMode Mode.eval
          :: (validateBatches tb tbi pf tc bs 0 vc AverageMeter.reset).2.2 := rfl

theorem trainPass_events (tb : Bool) (pf : Nat) (mdl : Model)
    (bs : List Batch) (c0 : Nat) :
    (trainPass tb pf mdl bs c0).events
      = Event.setMode Mode.train
          :: (trainBatches tb pf bs 0 c0 AverageMeter.reset).2.2 := rfl

theorem validateBatch_mem_shape {tb tbi : Bool} {pf tc : Nat} {bs : List Batch}
    {i vc : Nat} {m : AverageMeter} {ev : Event}
    (h : ev ∈ (validateBatches tb tbi pf tc bs i vc m).2.2) :
    validateBatchEvent ev = true :=
  List.all_eq_true.mp (validateBatches_all_shape tb tbi pf tc bs i vc m) ev h

theorem trainBatch_mem_shape {tb : Bool} {pf : Nat} {bs : List Batch}
    {i c : Nat} {m : AverageMeter} {ev : Event}
    (h : ev ∈ (trainBatches tb pf bs i c m).2.2) :
    trainBatchEvent ev = true :=
  List.all_eq_true.mp (trainBatches_all_shape tb pf bs i c m) ev h

theorem trainPass_no_copy (tb : Bool) (pf : Nat) (mdl : Model)
    (bs : List Batch) (c0 : Nat) (s d : String) :
    Event.copyFile s d ∉ (trainPass tb pf mdl bs c0).events := by
  rw [trainPass_events]
  intro hm
  rcases List.mem_cons.mp hm with h | h
  · exact Event.noConfusion h
  · simpa [trainBatchEvent] using trainBatch_mem_shape h

theorem validatePass_no_copy (tb tbi : Bool) (pf : Nat) (mdl : Model)
    (bs : List Batch) (tc vc : Nat) (s d : String) :
    Event.copyFile s d ∉ (validatePass tb tbi pf mdl bs tc vc).events := by
  rw [validatePass_events]
  intro hm
  rcases List.mem_cons.mp hm with h | h
  · exact Event.noConfusion h
  · simpa [validateBatchEvent] using validateBatch_mem_shape h

/-- C5: an EVALUATE-mode pass leaves the model parameters untouched,
never triggers any parameter update (no optimizer step, no gradient
computation), and places the model in eval mode at the start of the pass
without any later mode switch. -/
theorem C5_validate_frame (tb tbi : Bool) (pf : Nat) (mdl : Model)
    (bs : List Batch) (tc vc : Nat) :
    (validatePass tb tbi pf mdl bs tc vc).model.params = mdl.params
  ∧ (validatePass tb tbi pf mdl bs tc vc).model.mode = Mode.eval
  ∧ Event.optimizerStep ∉ (validatePass tb tbi pf mdl bs tc vc).events
  ∧ Event.zeroGrad ∉ (validatePass tb tbi pf mdl bs tc vc).events
  ∧ Event.backward ∉ (validatePass tb tbi pf mdl bs tc vc).events
  ∧ (validatePass tb tbi pf mdl bs tc vc).events.head?
      = some (Event.setMode Mode.eval)
  ∧ ∀ ev ∈ (validatePass tb tbi pf mdl bs tc vc).events.tail,
      ∀ mo : Mode, ev ≠ Event.setMode mo := by
  refine ⟨rfl, rfl, ?_, ?_, ?_, rfl, ?_⟩
  · rw [validatePass_events]
    intro hm
    rcases List.mem_cons.mp hm with h | h
    · exact Event.noConfusion h
    · simpa [validateBatchEvent] using validateBatch_mem_shape h
  · rw [validatePass_events]
    intro hm
    rcases List.mem_cons.mp hm with h | h
    · exact Event.noConfusion h
    · simpa [validateBatchEvent] using validateBatch_mem_shape h
  · rw [validatePass_events]
    intro hm
    rcases List.mem_cons.mp hm with h | h
    · exact Event.noConfusion h
    · simpa [validateBatchEvent] using validateBatch_mem_shape h
  · rw [validatePass_events]
    intro ev hm mo hctr
    subst hctr
    simpa [validateBatchEvent] using validateBatch_mem_shape hm

/-- Witness for C5 at a concrete one-batch validation pass. -/
theorem C5_witness :
    (validatePass false true 10 { params := 5, mode := Mode.train }
        [⟨2, 3⟩] 7 0).model.params = 5 :=
  (C5_validate_frame false true 10 { params := 5, mode := Mode.train }
    [⟨2, 3⟩] 7 0).1

/-- C10: every image log emitted during a validation pass carries the
global training-batch counter (the value tc the pass was entered with) as
its step, hence all image logs of one pass share the same step. -/
theorem C10_image_log_step (tb tbi : Bool) (pf : Nat) (mdl : Model)
    (bs : List Batch) (tc vc : Nat) (t : String) (s : Nat)
    (h : Event.imageLog t s ∈ (validatePass tb tbi pf mdl bs tc vc).events) :
    s = tc := by
  rw [validatePass_events] at h
  rcases List.mem_cons.mp h with h1 | h1
  · exact Event.noConfusion h1
  · have h2 := List.all_eq_true.mp
      (validateBatches_all_imageStep tb tbi pf tc bs 0 vc AverageMeter.reset)
      _ h1
    simpa [imageStepOk] using h2

/-- Witness for C10: a concrete pass entered at train counter 7 emits an
image log, and its step is 7. -/
theorem C10_witness :
    Event.imageLog "images" 7
        ∈ (validatePass false true 10 { params := 0, mode := Mode.train }
            [⟨1, 2⟩] 7 3).events
  ∧ 7 = 7 :=
  ⟨by decide,
   C10_image_log_step false true 10 { params := 0, mode := Mode.train }
     [⟨1, 2⟩] 7 3 "images" 7 (by decide)⟩

/-- C1 (code bug): the TRAIN-mode batch body computes the loss, records
it, calls zero_grad and backward, but never calls the optimizer's step:
the full event list of a one-batch training pass contains no
optimizerStep event, so no parameter update happens for the batch. -/
theorem C1_no_optimizer_step :
    (trainPass false 10 { params := 0, mode := Mode.train } [⟨1, 4⟩] 0).events
      = [Event.setMode Mode.train, Event.forward, Event.computeLoss,
         Event.meterUpdate, Event.zeroGrad, Event.backward, Event.printLine]
  ∧ Event.optimizerStep
      ∉ (trainPass false 10 { params := 0, mode := Mode.train } [⟨1, 4⟩] 0).events := by
  constructor
  · decide
  · decide

theorem FS.read_write_self (fs : FS) (p : String) (c : CheckpointRecord) :
    (fs.write p c).read p = some c := by
  simp [FS.read, FS.write, lookupF]

theorem FS.read_write_ne (fs : FS) (p q : String) (c : CheckpointRecord)
    (h : p ≠ q) : (fs.write p c).read q = fs.read q := by
  simp [FS.read, FS.write, lookupF, h]

theorem FS.read_rmTbLogs (fs : FS) (log p : String) :
    (fs.rmTbLogs log).read p = fs.read p := rfl

theorem latestPath_ne_bestPath (log : String) : latestPath log ≠ bestPath log := by
  intro h
  have h2 : (latestPath log).length = (bestPath log).length := congrArg String.length h
  have e1 : ("weights/" : String).length = 8 := rfl
  have e2 : ("_checkpoint.pth.tar" : String).length = 19 := rfl
  have e3 : ("_best.pth.tar" : String).length = 13 := rfl
  rw [latestPath, bestPath, String.length_append, String.length_append,
      String.length_append, String.length_append, e1, e2, e3] at h2
  omega

theorem save_checkpoint_read_latest (fs : FS) (ck : CheckpointRecord) (b : Bool)
    (lp bp : String) (h : bp ≠ lp) :
    ((save_checkpoint fs ck b lp bp).1).read lp = some ck := by
  cases b with
  | false => simp [save_checkpoint, FS.read_write_self]
  | true => simp [save_checkpoint, FS.read_write_ne _ _ _ _ h, FS.read_write_self]

theorem save_checkpoint_read_best_true (fs : FS) (ck : CheckpointRecord)
    (lp bp : String) :
    ((save_checkpoint fs ck true lp bp).1).read bp = some ck := by
  simp [save_checkpoint, FS.read_write_self]

theorem save_checkpoint_read_best_false (fs : FS) (ck : CheckpointRecord)
    (lp bp : String) (h : lp ≠ bp) :
    ((save_checkpoint fs ck false lp bp).1).read bp = fs.read bp := by
  simp [save_checkpoint, FS.read_write_ne _ _ _ _ h]

theorem save_checkpoint_trace (fs : FS) (ck : CheckpointRecord) (b : Bool)
    (lp bp : String) :
    (save_checkpoint fs ck b lp bp).2
      = if b then [Event.saveFile lp, Event.copyFile lp bp]
        else [Event.saveFile lp] := by
  cases b <;> rfl

theorem epochBody_best (cfg : Args) (data : Nat → EpochData) (st : LoopSt)
    (e : Nat) :
    (epochBody cfg data st e).1.best
      = min ((epochRun cfg data st e).2).avg st.best := rfl

theorem epochBody_fs (cfg : Args) (data : Nat → EpochData) (st : LoopSt)
    (e : Nat) :
    (epochBody cfg data st e).1.fs
      = (save_checkpoint st.fs
          { epoch := e + 1, arch := cfg.arch,
            state_dict := ((epochRun cfg data st e).2).model.params,
            best_val_loss := min ((epochRun cfg data st e).2).avg st.best }
          (decide (((epochRun cfg data st e).2).avg < st.best))
          (latestPath cfg.lognumber) (bestPath cfg.lognumber)).1 := rfl

theorem runLoop_best_le (cfg : Args) (data : Nat → EpochData) :
    ∀ (idxs : List Nat) (st : LoopSt),
      (runLoop cfg data idxs st).1.best ≤ st.best := by
  intro idxs
  induction idxs with
  | nil => intro st; exact le_refl _
  | cons e rest ih =>
    intro st
    calc (runLoop cfg data (e :: rest) st).1.best
        = (runLoop cfg data rest (epochBody cfg data st e).1).1.best := rfl
      _ ≤ (epochBody cfg data st e).1.best := ih _
      _ ≤ st.best := by rw [epochBody_best]; exact min_le_right _ _

/-- C3: every epoch's checkpoint save overwrites the latest-checkpoint
file with the record of this epoch; it copies the identical content to
the best-checkpoint file iff the epoch's validation mean loss improves
strictly on best_val_loss; best_val_loss becomes min(val_loss, best) and
hence never increases over the rest of the run. -/
theorem C3_checkpoint_save (cfg : Args) (data : Nat → EpochData) (st : LoopSt)
    (e : Nat) (idxs : List Nat) (st0 : LoopSt) :
    ((epochBody cfg data st e).1.fs.read (latestPath cfg.lognumber)
        = some { epoch := e + 1, arch := cfg.arch,
                 state_dict := ((epochRun cfg data st e).2).model.params,
                 best_val_loss := min ((epochRun cfg data st e).2).avg st.best })
  ∧ (((epochRun cfg data st e).2).avg < st.best →
        (epochBody cfg data st e).1.fs.read (bestPath cfg.lognumber)
          = (epochBody cfg data st e).1.fs.read (latestPath cfg.lognumber))
  ∧ (¬ ((epochRun cfg data st e).2).avg < st.best →
        (epochBody cfg data st e).1.fs.read (bestPath cfg.lognumber)
          = st.fs.read (bestPath cfg.lognumber))
  ∧ (epochBody cfg data st e).1.best
      = min ((epochRun cfg data st e).2).avg st.best
  ∧ (runLoop cfg data idxs st0).1.best ≤ st0.best := by
  refine ⟨?_, ?_, ?_, rfl, runLoop_best_le cfg data idxs st0⟩
  · rw [epochBody_fs]
    exact save_checkpoint_read_latest _ _ _ _ _
      (Ne.symm (latestPath_ne_bestPath cfg.lognumber))
  · intro hv
    rw [epochBody_fs, decide_eq_true hv,
        save_checkpoint_read_best_true,
        save_checkpoint_read_latest _ _ _ _ _
          (Ne.symm (latestPath_ne_bestPath cfg.lognumber))]
  · intro hv
    rw [epochBody_fs, decide_eq_false hv,
        save_checkpoint_read_best_false _ _ _ _ (latestPath_ne_bestPath cfg.lognumber)]

/-- Witness for C3 at a concrete epoch step. -/
theorem C3_witness :
    (epochBody argsFresh dataLoss100
        { best := 100, model := { params := 0, mode := Mode.train },
          tc := 0, vc := 0, sched := initPlateau (1 / 10), fs := fsEmpty } 0).1.best
      = min ((epochRun argsFresh dataLoss100
          { best := 100, model := { params := 0, mode := Mode.train },
            tc := 0, vc := 0, sched := initPlateau (1 / 10), fs := fsEmpty } 0).2).avg
          100 :=
  (C3_checkpoint_save argsFresh dataLoss100
    { best := 100, model := { params := 0, mode := Mode.train },
      tc := 0, vc := 0, sched := initPlateau (1 / 10), fs := fsEmpty } 0 []
    { best := 100, model := { params := 0, mode := Mode.train },
      tc := 0, vc := 0, sched := initPlateau (1 / 10), fs := fsEmpty }).2.2.2.1

theorem plateau_step_lr_ge (st : PlateauState) (metric : ℚ)
    (h : plateau_min_lr ≤ st.lr) :
    plateau_min_lr ≤ (plateau_step st metric).lr := by
  unfold plateau_step
  simp only [apply_ite PlateauState.lr, apply_ite PlateauState.num_bad_epochs]
  split_ifs <;> first
    | exact h
    | exact le_max_right _ _

theorem plateau_step_lr_at_floor (st : PlateauState) (metric : ℚ)
    (h : st.lr = plateau_min_lr) :
    (plateau_step st metric).lr = plateau_min_lr := by
  have hmul : plateau_min_lr * plateau_factor ≤ plateau_min_lr := by
    norm_num [plateau_min_lr, plateau_factor]
  unfold plateau_step
  simp only [apply_ite PlateauState.lr, apply_ite PlateauState.num_bad_epochs]
  split_ifs <;> first
    | exact h
    | (rw [h]; exact max_eq_right hmul)

/-- C8: for every sequence of monitored values, the modelled
reduce-on-plateau scheduler never takes the learning rate below the
configured floor min_lr = 1e-7, and once the rate sits at the floor any
further steps leave it unchanged. -/
theorem C8_scheduler_floor (st : PlateauState) (ms : List ℚ)
    (h : plateau_min_lr ≤ st.lr) :
    plateau_min_lr ≤ (ms.foldl plateau_step st).lr
  ∧ (st.lr = plateau_min_lr → (ms.foldl plateau_step st).lr = plateau_min_lr) := by
  induction ms generalizing st with
  | nil => exact ⟨h, fun hf => hf⟩
  | cons v rest ih =>
    have h1 := plateau_step_lr_ge st v h
    refine ⟨(ih (plateau_step st v) h1).1, fun hf => ?_⟩
    have h2 := plateau_step_lr_at_floor st v hf
    exact (ih (plateau_step st v) h1).2 h2

/-- Witness for C8 at a concrete non-improving metric stream. -/
theorem C8_witness :
    plateau_min_lr ≤ (initPlateau 1).lr
  ∧ plateau_min_lr ≤ ([5, 5, 5, 5, 5, 5, 5].foldl plateau_step (initPlateau 1)).lr :=
  ⟨by norm_num [plateau_min_lr, initPlateau],
   (C8_scheduler_floor (initPlateau 1) [5, 5, 5, 5, 5, 5, 5]
     (by norm_num [plateau_min_lr, initPlateau])).1⟩

/-- C6: the modelled dataset partition is a pure function of the image
list, the mask list, the stratification keys, the validation fraction and
the seed: two calls with the same inputs yield identical train and
validation membership, with no hidden entropy source. -/
theorem C6_partition_deterministic (i1 m1 : List String) (s1 : List Nat)
    (f1 : ℚ) (sd1 : Nat) (i2 m2 : List String) (s2 : List Nat) (f2 : ℚ)
    (sd2 : Nat)
    (h : i1 = i2 ∧ m1 = m2 ∧ s1 = s2 ∧ f1 = f2 ∧ sd1 = sd2) :
    train_test_split i1 m1 s1 f1 sd1 = train_test_split i2 m2 s2 f2 sd2 := by
  obtain ⟨h1, h2, h3, h4, h5⟩ := h
  subst h1; subst h2; subst h3; subst h4; subst h5
  rfl

/-- Witness for C6 at a concrete dataset index. -/
theorem C6_witness :
    train_test_split ["img0", "img1", "img2"] ["msk0", "msk1", "msk2"]
        [0, 1, 0] (1 / 5) 42
      = train_test_split ["img0", "img1", "img2"] ["msk0", "msk1", "msk2"]
        [0, 1, 0] (1 / 5) 42 :=
  C6_partition_deterministic ["img0", "img1", "img2"] ["msk0", "msk1", "msk2"]
    [0, 1, 0] (1 / 5) 42 ["img0", "img1", "img2"] ["msk0", "msk1", "msk2"]
    [0, 1, 0] (1 / 5) 42 ⟨rfl, rfl, rfl, rfl, rfl⟩

theorem epochRun_fst (cfg : Args) (data : Nat → EpochData) (st : LoopSt)
    (e : Nat) :
    (epochRun cfg data st e).1
      = trainPass cfg.tensorboard cfg.print_freq st.model
          (data e).trainBatches st.tc := rfl

theorem epochRun_snd (cfg : Args) (data : Nat → EpochData) (st : LoopSt)
    (e : Nat) :
    (epochRun cfg data st e).2
      = validatePass cfg.tensorboard cfg.tensorboard_images cfg.print_freq
          ((epochRun cfg data st e).1).model (data e).valBatches
          ((epochRun cfg data st e).1).counter st.vc := rfl

theorem validatePass_avg (tb tbi : Bool) (pf : Nat) (mdl : Model)
    (bs : List Batch) (tc vc : Nat) :
    (validatePass tb tbi pf mdl bs tc vc).avg
      = (meterFold bs AverageMeter.reset).avg := by
  show (validateBatches tb tbi pf tc bs 0 vc AverageMeter.reset).1.avg = _
  rw [validateBatches_meter]

theorem epochRun_val_avg (cfg : Args) (data : Nat → EpochData) (st : LoopSt)
    (e : Nat) :
    ((epochRun cfg data st e).2).avg = valLossOf (data e) := by
  rw [epochRun_snd, validatePass_avg]
  rfl

theorem epochBody_trace (cfg : Args) (data : Nat → EpochData) (st : LoopSt)
    (e : Nat) :
    (epochBody cfg data st e).2
      = (epochRun cfg data st e).1.events ++ (epochRun cfg data st e).2.events
        ++ (if cfg.tensorboard then
              [Event.scalarLog "train_epoch_loss" (e + 1),
               Event.scalarLog "valid_epoch_loss" (e + 1)]
            else [])
        ++ (save_checkpoint st.fs
            { epoch := e + 1, arch := cfg.arch,
              state_dict := ((epochRun cfg data st e).2).model.params,
              best_val_loss := min ((epochRun cfg data st e).2).avg st.best }
            (decide (((epochRun cfg data st e).2).avg < st.best))
            (latestPath cfg.lognumber) (bestPath cfg.lognumber)).2 := rfl

theorem epochBody_no_copy (cfg : Args) (data : Nat → EpochData) (st : LoopSt)
    (e : Nat) (s d : String)
    (hnb : ¬ ((epochRun cfg data st e).2).avg < st.best) :
    Event.copyFile s d ∉ (epochBody cfg data st e).2 := by
  rw [epochBody_trace, save_checkpoint_trace, decide_eq_false hnb]
  intro hm
  rcases List.mem_append.mp hm with hm | hm
  · rcases List.mem_append.mp hm with hm | hm
    · rcases List.mem_append.mp hm with hm | hm
      · rw [epochRun_fst] at hm
        exact trainPass_no_copy _ _ _ _ _ s d hm
      · rw [epochRun_snd] at hm
        exact validatePass_no_copy _ _ _ _ _ _ _ s d hm
    · split at hm
      · rcases List.mem_cons.mp hm with hm | hm
        · exact Event.noConfusion hm
        · rcases List.mem_cons.mp hm with hm | hm
          · exact Event.noConfusion hm
          · exact List.not_mem_nil _ hm
      · exact List.not_mem_nil _ hm
  · rcases List.mem_cons.mp hm with hm | hm
    · exact Event.noConfusion hm
    · exact List.not_mem_nil _ hm

theorem runLoop_floor100 (cfg : Args) (data : Nat → EpochData) :
    ∀ (idxs : List Nat) (st : LoopSt), st.best = 100 →
      (∀ e ∈ idxs, 100 ≤ valLossOf (data e)) →
      (runLoop cfg data idxs st).1.best = 100
    ∧ (∀ s d, Event.copyFile s d ∉ (runLoop cfg data idxs st).2)
    ∧ (runLoop cfg data idxs st).1.fs.read (bestPath cfg.lognumber)
        = st.fs.read (bestPath cfg.lognumber) := by
  intro idxs
  induction idxs with
  | nil =>
    intro st h0 _
    exact ⟨h0, fun s d hm => List.not_mem_nil _ hm, rfl⟩
  | cons e rest ih =>
    intro st h0 hall
    have hge : (100 : ℚ) ≤ ((epochRun cfg data st e).2).avg := by
      rw [epochRun_val_avg]
      exact hall e (List.mem_cons_self e rest)
    have hnlt : ¬ ((epochRun cfg data st e).2).avg < st.best := by
      rw [h0]; exact not_lt.mpr hge
    have hb1 : (epochBody cfg data st e).1.best = 100 := by
      rw [epochBody_best, h0]
      exact min_eq_right hge
    have hfs : (epochBody cfg data st e).1.fs.read (bestPath cfg.lognumber)
        = st.fs.read (bestPath cfg.lognumber) := by
      rw [epochBody_fs, decide_eq_false hnlt]
      exact save_checkpoint_read_best_false _ _ _ _
        (latestPath_ne_bestPath cfg.lognumber)
    have hrest := ih (epochBody cfg data st e).1 hb1
      (fun e2 he2 => hall e2 (List.mem_cons_of_mem e he2))
    refine ⟨hrest.1, ?_, ?_⟩
    · intro s d hm
      have hsplit : (runLoop cfg data (e :: rest) st).2
          = (epochBody cfg data st e).2
            ++ (runLoop cfg data rest (epochBody cfg data st e).1).2 := rfl
      rw [hsplit] at hm
      rcases List.mem_append.mp hm with hm | hm
      · exact epochBody_no_copy cfg data st e s d hnlt hm
      · exact hrest.2.1 s d hm
    · show (runLoop cfg data rest (epochBody cfg data st e).1).1.fs.read _ = _
      rw [hrest.2.2, hfs]

/-- C2 counterexample: with architecture id not_a_real_model and an
existing tb_logs/test_model directory, the run does raise the
configuration error, but only after the log directory has been removed
and the training dataset has been read: the trace shows the removal and
the dataset read strictly before the error. -/
theorem C2_counterexample :
    (runProgram argsInvalidArch fsWithTbLogs emptyData).error
        = some "Model not supported"
  ∧ (runProgram argsInvalidArch fsWithTbLogs emptyData).fs.tbLogs = []
  ∧ fsWithTbLogs.tbLogs = ["test_model"]
  ∧ (runProgram argsInvalidArch fsWithTbLogs emptyData).trace
      = [Event.removeDir "tb_logs/test_model/",
         Event.readTrainDataset "mul_urban",
         Event.raiseError "Model not supported"] := by
  refine ⟨?_, ?_, rfl, ?_⟩ <;> decide

/-- C2 amended: an unknown architecture or optimizer id makes the run
fail with a configuration error during INIT, before any epoch runs and
before any checkpoint file is created or copied (the checkpoint file
store is left unchanged); the tb_logs directory removal and the dataset
read, however, do happen before the check. -/
theorem C2_amended_config_error (cfg : Args) (fs0 : FS) (data : Nat → EpochData)
    (h : validArch cfg.arch = false ∨ validOptimizer cfg.optimizer = false) :
    ((runProgram cfg fs0 data).error = some "Model not supported"
      ∨ (runProgram cfg fs0 data).error = some "Optimizer not supported")
  ∧ (runProgram cfg fs0 data).ranEpochs = []
  ∧ (∀ p, Event.saveFile p ∉ (runProgram cfg fs0 data).trace)
  ∧ (∀ s d, Event.copyFile s d ∉ (runProgram cfg fs0 data).trace)
  ∧ (runProgram cfg fs0 data).fs.files = fs0.files := by
  rcases h with h | h
  · simp [runProgram, h, FS.rmTbLogs]
  · by_cases hA : validArch cfg.arch = true
    · simp [runProgram, hA, h, FS.rmTbLogs]
    · have hA2 : validArch cfg.arch = false := by
        cases hx : validArch cfg.arch
        · rfl
        · exact absurd hx hA
      simp [runProgram, hA2, FS.rmTbLogs]

/-- Witness for C2's amended theorem at the concrete invalid
architecture configuration. -/
theorem C2_amended_witness :
    validArch argsInvalidArch.arch = false
  ∧ (runProgram argsInvalidArch fsWithTbLogs emptyData).ranEpochs = [] :=
  ⟨by decide,
   (C2_amended_config_error argsInvalidArch fsWithTbLogs emptyData
     (Or.inl (by decide))).2.1⟩

/-- C4: resuming from a checkpoint restores start epoch and best metric
exactly: the epoch loop runs over the indices [epoch_completed,
end_epoch), the restored best metric equals the checkpointed value, and
in particular a checkpoint whose epoch field is 3 together with
end_epoch 5 trains epochs 3 and 4 only. -/
theorem C4_resume_continuity (cfg : Args) (fs0 : FS) (data : Nat → EpochData)
    (p : String) (ck : CheckpointRecord)
    (h1 : cfg.resume = some p) (h2 : fs0.read p = some ck)
    (h3 : validArch cfg.arch = true) (h4 : validOptimizer cfg.optimizer = true)
    (h5 : cfg.evaluate = false) :
    (runProgram cfg fs0 data).ranEpochs
        = List.range' ck.epoch (cfg.epochs - ck.epoch)
  ∧ resolveResume cfg.resume cfg.start_epoch (fs0.rmTbLogs cfg.lognumber)
      = (ck.epoch, ck.best_val_loss, ck.state_dict)
  ∧ (ck.epoch = 3 → cfg.epochs = 5 →
      (runProgram cfg fs0 data).ranEpochs = [3, 4]) := by
  have hr : resolveResume cfg.resume cfg.start_epoch (fs0.rmTbLogs cfg.lognumber)
      = (ck.epoch, ck.best_val_loss, ck.state_dict) := by
    rw [h1]
    show (match (fs0.rmTbLogs cfg.lognumber).read p with
      | some c => (c.epoch, c.best_val_loss, c.state_dict)
      | none => (cfg.start_epoch, 100, 0)) = _
    rw [FS.read_rmTbLogs, h2]
  have hran : (runProgram cfg fs0 data).ranEpochs
      = List.range' ck.epoch (cfg.epochs - ck.epoch) := by
    simp [runProgram, h3, h4, h5, hr]
  refine ⟨hran, hr, fun he hE => ?_⟩
  rw [hran, he, hE]
  decide

/-- Witness for C4: end_epoch 5, checkpoint written at the end of epoch
index 2 (epoch field 3): the resumed run trains epochs 3 and 4 only. -/
theorem C4_witness :
    argsResume.resume = some "weights/ck.pth"
  ∧ (runProgram argsResume fsResume emptyData).ranEpochs = [3, 4] :=
  ⟨rfl,
   (C4_resume_continuity argsResume fsResume emptyData "weights/ck.pth"
     ckEpoch3 rfl rfl (by decide) (by decide) rfl).2.2 rfl rfl⟩

/-- C9: best_val_loss starts at 100, not infinity: in a fresh
(non-resumed) run whose every epoch has validation mean loss at least
100, the best metric stays 100, no best-checkpoint copy ever happens,
and the best-checkpoint file is never written, not even on the first
epoch. -/
theorem C9_best_initialised_100 (cfg : Args) (fs0 : FS)
    (data : Nat → EpochData)
    (h1 : cfg.resume = none) (h2 : validArch cfg.arch = true)
    (h3 : validOptimizer cfg.optimizer = true) (h4 : cfg.evaluate = false)
    (h5 : ∀ e ∈ (runProgram cfg fs0 data).ranEpochs, 100 ≤ valLossOf (data e)) :
    (runProgram cfg fs0 data).best = 100
  ∧ (∀ s d, Event.copyFile s d ∉ (runProgram cfg fs0 data).trace)
  ∧ (runProgram cfg fs0 data).fs.read (bestPath cfg.lognumber)
      = fs0.read (bestPath cfg.lognumber) := by
  have hr : resolveResume cfg.resume cfg.start_epoch (fs0.rmTbLogs cfg.lognumber)
      = (cfg.start_epoch, 100, 0) := by
    rw [h1]
    rfl
  have hprog : runProgram cfg fs0 data
      = { trace := [Event.removeDir ("tb_logs/" ++ cfg.lognumber ++ "/"),
                    Event.readTrainDataset cfg.preset]
            ++ (runLoop cfg data
                (List.range' cfg.start_epoch (cfg.epochs - cfg.start_epoch))
                { best := 100, model := { params := 0, mode := Mode.train },
                  tc := 0, vc := 0, sched := initPlateau cfg.lr,
                  fs := fs0.rmTbLogs cfg.lognumber }).2,
          fs := (runLoop cfg data
                (List.range' cfg.start_epoch (cfg.epochs - cfg.start_epoch))
                { best := 100, model := { params := 0, mode := Mode.train },
                  tc := 0, vc := 0, sched := initPlateau cfg.lr,
                  fs := fs0.rmTbLogs cfg.lognumber }).1.fs,
          error := none,
          ranEpochs := List.range' cfg.start_epoch (cfg.epochs - cfg.start_epoch),
          best := (runLoop cfg data
                (List.range' cfg.start_epoch (cfg.epochs - cfg.start_epoch))
                { best := 100, model := { params := 0, mode := Mode.train },
                  tc := 0, vc := 0, sched := initPlateau cfg.lr,
                  fs := fs0.rmTbLogs cfg.lognumber }).1.best,
          startEpoch := cfg.start_epoch } := by
    simp [runProgram, h2, h3, h4, hr]
  rw [hprog] at h5
  have hloop := runLoop_floor100 cfg data
    (List.range' cfg.start_epoch (cfg.epochs - cfg.start_epoch))
    { best := 100, model := { params := 0, mode := Mode.train }, tc := 0,
      vc := 0, sched := initPlateau cfg.lr, fs := fs0.rmTbLogs cfg.lognumber }
    rfl h5
  refine ⟨?_, ?_, ?_⟩
  · rw [hprog]
    exact hloop.1
  · intro s d
    rw [hprog]
    intro hm
    rcases List.mem_append.mp hm with hm | hm
    · rcases List.mem_cons.mp hm with hm | hm
      · exact Event.noConfusion hm
      · rcases List.mem_cons.mp hm with hm | hm
        · exact Event.noConfusion hm
        · exact List.not_mem_nil _ hm
    · exact hloop.2.1 s d hm
  · rw [hprog]
    have h6 := hloop.2.2
    rw [FS.read_rmTbLogs] at h6
    exact h6

/-- Witness for C9 at a fresh one-epoch run whose validation loss is
exactly 100. -/
theorem C9_witness :
    argsFresh.resume = none
  ∧ (runProgram argsFresh fsEmpty dataLoss100).best = 100 :=
  ⟨rfl,
   (C9_best_initialised_100 argsFresh fsEmpty dataLoss100 rfl (by decide)
     (by decide) rfl
     (fun e _ => by
       norm_num [valLossOf, dataLoss100, meterFold, AverageMeter.reset,
         AverageMeter.update])).1⟩

end TrainSat

